import Mathlib

/-!
Verification of the mflix movies HTTP API (`mflix/api/movies.py`).

The module is a set of Flask handlers; we embed each handler as a pure Lean
function.  JSON-like Python values are modelled by the inductive `Value`;
Python dictionaries are association lists with first-match lookup and
insert-or-overwrite update, which matches Python dict semantics for lookup,
`{k: v, ...}` literals and `**` spreads.  The external data layer
(`mflix.db`) is modelled as a record of abstract functions; fallible calls
return `Except String` (the `String` is the exception message `str(e)`).
A handler returns a `Response`: the JSON body (a dict) paired with the HTTP
status code (Flask uses 200 when the handler returns no explicit code).
-/

set_option autoImplicit false

namespace Mflix

/-- A Python/JSON-like runtime value.  `vOpaque ty` stands for any value of a
type outside this universe (e.g. a datetime); `ty` is its rendered
`str(type(v))`. -/
inductive Value where
  | vNone : Value
  | vStr : String → Value
  | vInt : Int → Value
  | vList : List Value → Value
  | vDict : List (String × Value) → Value
  | vOpaque : String → Value

/-- Python dict lookup (`d[k]` / `d.get(k)` without default): first entry with
the key.  Keys of dicts built by the embedded code are unique, so first-match
agrees with Python. -/
def dictGet (d : List (String × Value)) (k : String) : Option Value :=
  match d with
  | [] => none
  | (k₁, v) :: rest => if k₁ = k then some v else dictGet rest k

/-- Python `d.get(k, dflt)`. -/
def dictGetD (d : List (String × Value)) (k : String) (dflt : Value) : Value :=
  (dictGet d k).getD dflt

/-- Python `d[k] = v`: overwrite in place when the key is present, append
otherwise. -/
def dictInsert (d : List (String × Value)) (k : String) (v : Value) :
    List (String × Value) :=
  match d with
  | [] => [(k, v)]
  | (k₁, v₁) :: rest =>
      if k₁ = k then (k₁, v) :: rest else (k₁, v₁) :: dictInsert rest k v

/-- Python `{**d, **u}`: entries of `u` are inserted after those of `d`, so on
a key collision the value from `u` wins. -/
def pyDictMerge (d u : List (String × Value)) : List (String × Value) :=
  u.foldl (fun acc kv => dictInsert acc kv.1 kv.2) d

/-- Python `str(type(v))` for the embedded value universe. -/
def pyTypeStr : Value → String
  | .vNone => "<class \x27NoneType\x27>"
  | .vStr _ => "<class \x27str\x27>"
  | .vInt _ => "<class \x27int\x27>"
  | .vList _ => "<class \x27list\x27>"
  | .vDict _ => "<class \x27dict\x27>"
  | .vOpaque ty => ty

/-- Digits to a natural number, most significant first. -/
def digitsToNat (cs : List Char) : Nat :=
  cs.foldl (fun a c => a * 10 + (c.toNat - (Char.toNat '0'))) 0

/-- Strip leading and trailing whitespace from a character list (the
whitespace stripping `int(s)` performs on its argument). -/
def pyStrip (cs : List Char) : List Char :=
  ((cs.dropWhile Char.isWhitespace).reverse.dropWhile Char.isWhitespace).reverse

/-- Python `int(s)` on a string: surrounding whitespace is stripped, an
optional single `+`/`-` sign is allowed, and the rest must be a non-empty run
of decimal digits; otherwise `int` raises `ValueError`, modelled as `none`.
(Python also accepts underscore digit separators; none of the verified
properties depend on that corner.) -/
def pyParseInt (s : String) : Option Int :=
  match pyStrip s.toList with
  | [] => none
  | c :: rest =>
      let sign : Int := if c = '-' then -1 else 1
      let digits := if c = '-' ∨ c = '+' then rest else c :: rest
      if digits = [] then none
      else if digits.all Char.isDigit then some (sign * digitsToNat digits)
      else none

/-- Python truthiness of an optional string (`None` and `""` are falsy). -/
def pyStrTruthy : Option String → Bool
  | none => false
  | some s => !(s = "")

/-- The query parameters of a request to the search / faceted-search
endpoints: `page = request.args.get(\x27page\x27)`,
`cast = request.args.getlist(\x27cast\x27)`,
`genre = request.args.getlist(\x27genre\x27)`,
`text = request.args.get(\x27text\x27)` (`getlist` yields `[]` when absent,
`get` yields `None`). -/
structure Request where
  page : Option String
  cast : List String
  genre : List String
  text : Option String
deriving DecidableEq, Repr

/-- The result of a handler: JSON body and HTTP status code (200 when the Python
handler returns `jsonify(...)` with no explicit code). -/
def Response := List (String × Value) × Nat

/-- The page-determination block shared by `api_search_movies` and
`api_search_movies_faceted` (movies.py lines 44-54 and 129-139): absent page
gives 0, otherwise `int(page)`; `ValueError` is caught, logged and replaced
by 0. -/
def parsePage (p : Option String) : Int :=
  match p with
  | none => 0
  | some s =>
      match pyParseInt s with
      | some n => n
      | none => 0

/-- The internal filter dict built by `api_search_movies`
(movies.py lines 56-70): key `cast` when the cast list is non-empty, key
`genres` when the genre list is non-empty, key `text` when the text argument
is truthy. -/
def searchFilters (r : Request) : List (String × Value) :=
  let f : List (String × Value) := []
  let f := if r.cast.isEmpty then f
           else dictInsert f "cast" (.vList (r.cast.map .vStr))
  let f := if r.genre.isEmpty then f
           else dictInsert f "genres" (.vList (r.genre.map .vStr))
  match r.text with
  | none => f
  | some s => if s = "" then f else dictInsert f "text" (.vStr s)

/-- The display filter dict `return_filters` built alongside `searchFilters`
(movies.py lines 58-70): same values, under the query-parameter names `cast`,
`genre`, `search`. -/
def displayFilters (r : Request) : List (String × Value) :=
  let f : List (String × Value) := []
  let f := if r.cast.isEmpty then f
           else dictInsert f "cast" (.vList (r.cast.map .vStr))
  let f := if r.genre.isEmpty then f
           else dictInsert f "genre" (.vList (r.genre.map .vStr))
  match r.text with
  | none => f
  | some s => if s = "" then f else dictInsert f "search" (.vStr s)

/-- The external data layer (`mflix.db`), abstract here.  `get_movies` returns
`(movies, total_num_entries)`; `get_movies_faceted` returns a dict with keys
`movies`, `runtime`, `rating` paired with a total, or raises (modelled as
`Except.error` carrying `str(e)`); `get_movies_by_country` returns the list
of matching titles or raises. -/
structure DB where
  get_movies : Value → Int → Nat → Value × Value
  get_movies_faceted :
      List (String × Value) → Int → Nat → Except String (List (String × Value) × Value)
  get_movies_by_country : List String → Except String Value

/-- Handler for `GET /search` (`api_search_movies`, movies.py lines 39-85):
parse the page, build the filters, call `get_movies(filters, page, 20)` and
shape the success envelope; the handler always answers 200 on this path. -/
def api_search_movies (db : DB) (r : Request) : Response :=
  let MOVIES_PER_PAGE : Nat := 20
  let page := parsePage r.page
  let filters := searchFilters r
  let return_filters := displayFilters r
  let mt := db.get_movies (.vDict filters) page MOVIES_PER_PAGE
  ([("status", .vStr "success"),
    ("movies", mt.1),
    ("page", .vInt page),
    ("filters", .vDict return_filters),
    ("entries_per_page", .vInt (MOVIES_PER_PAGE : Int)),
    ("total_results", mt.2)], 200)

/-- Handler for `GET /facet-search` (`api_search_movies_faceted`, movies.py
lines 124-171): parse the page, build a filter dict from `cast` only; when it
is empty, fall back to `api_search_movies`; otherwise call
`get_movies_faceted` in a try block, shaping either the success envelope
(200) or, on exception, a fail body returned without an explicit status code
(hence 200). -/
def api_search_movies_faceted (db : DB) (r : Request) : Response :=
  let MOVIES_PER_PAGE : Nat := 20
  let page := parsePage r.page
  let filters : List (String × Value) :=
    if r.cast.isEmpty then []
    else dictInsert [] "cast" (.vList (r.cast.map .vStr))
  let return_filters : List (String × Value) :=
    if r.cast.isEmpty then []
    else dictInsert [] "cast" (.vList (r.cast.map .vStr))
  if filters.isEmpty then api_search_movies db r
  else
    match db.get_movies_faceted filters page MOVIES_PER_PAGE with
    | .ok (movies, total_num_entries) =>
        ([("status", .vStr "success"),
          ("movies", dictGetD movies "movies" .vNone),
          ("facets", .vDict [("runtime", dictGetD movies "runtime" .vNone),
                             ("rating", dictGetD movies "rating" .vNone)]),
          ("page", .vInt page),
          ("filters", .vDict return_filters),
          ("entries_per_page", .vInt (MOVIES_PER_PAGE : Int)),
          ("total_results", total_num_entries)], 200)
    | .error e => ([("status", .vStr "fail"), ("error", .vStr e)], 200)

/-- Handler for `GET /id/<id>` (`api_get_movie_by_id`, movies.py lines
88-103).  Per the collaborator contract, `get_movie` returns a movie document
or `None`; the handler answers status fail / 400 when the result is `None` or
the empty dict, and otherwise status success / 200 with
`updated_type = str(type(movie.get(\x27lastupdated\x27)))`. -/
def api_get_movie_by_id (get_movie : String → Option (List (String × Value)))
    (id : String) : Response :=
  match get_movie id with
  | none => ([("status", .vStr "fail")], 400)
  | some movie =>
      if movie.isEmpty then ([("status", .vStr "fail")], 400)
      else
        ([("status", .vStr "success"),
          ("movie", .vDict movie),
          ("updated_type", .vStr (pyTypeStr (dictGetD movie "lastupdated" .vNone)))],
         200)

/-- Handler for `GET /countries` (`api_get_movies_by_country`, movies.py
lines 106-121): the whole body is guarded; success yields
status success / titles / 200, an exception yields status fail / error / 400. -/
def api_get_movies_by_country (get_movies_by_country : List String → Except String Value)
    (countries : List String) : Response :=
  match get_movies_by_country countries with
  | .ok results => ([("status", .vStr "success"), ("titles", results)], 200)
  | .error e => ([("status", .vStr "fail"), ("error", .vStr e)], 400)

/-- Modelled from the spec: `expect` lives in `mflix/api/utils.py`, which is
not under src/.  Per the spec it is "a type/presence check that fails with a
descriptive error naming the missing/mistyped field"; every call site in
movies.py passes `str` as the expected type, so the model is specialised to
strings.  Success returns the value, failure raises an error message naming
the field. -/
def expect (v : Value) (field : String) : Except String String :=
  match v with
  | .vStr s => .ok s
  | _ => .error (field ++ " must be of type str")

/-- One recorded invocation of `add_comment(movie_id, user, comment, date)`. -/
structure AddCall where
  movie_id : String
  user : Value
  comment : String
  date : Value

/-- Handler for `POST /comment` (`api_post_comment`, movies.py lines
174-191), after JWT validation resolved the caller to `user`; `now` is the
value of `datetime.now()` at submission.  `post_data` is the parsed JSON
body (a dict).  The try block validates `movie_id` and `comment` with
`expect`, calls `add_comment`, refetches the movie and returns its comment
list; any exception is caught and answered as status fail / error with no
explicit status code (hence 200).  Besides the response, the model returns
the list of `add_comment` invocations made, so that "no comment is added"
is expressible. -/
def api_post_comment
    (add_comment : String → Value → String → Value → Except String Unit)
    (get_movie : String → Option (List (String × Value)))
    (user : Value) (now : Value)
    (post_data : List (String × Value)) : Response × List AddCall :=
  match expect (dictGetD post_data "movie_id" .vNone) "movie_id" with
  | .error e => ((([("status", .vStr "fail"), ("error", .vStr e)]), 200), [])
  | .ok movie_id =>
      match expect (dictGetD post_data "comment" .vNone) "comment" with
      | .error e => ((([("status", .vStr "fail"), ("error", .vStr e)]), 200), [])
      | .ok comment =>
          let call : AddCall := ⟨movie_id, user, comment, now⟩
          match add_comment movie_id user comment now with
          | .error e =>
              ((([("status", .vStr "fail"), ("error", .vStr e)]), 200), [call])
          | .ok _ =>
              match get_movie movie_id with
              | none =>
                  -- `get_movie(movie_id)` returned None: `.get` raises
                  -- AttributeError, caught by the same handler.
                  ((([("status", .vStr "fail"),
                      ("error", .vStr "\x27NoneType\x27 object has no attribute \x27get\x27")]),
                    200), [call])
              | some movie =>
                  ((([("status", .vStr "success"),
                      ("comments", dictGetD movie "comments" .vNone)]), 200), [call])

/-- A pymongo write-concern descriptor: the handler reads its name-mangled
`_WriteConcern__document` dict. -/
structure WriteConcern where
  document : List (String × Value)

/-- Handler for `GET /config-options` (`get_conn_pool_size`, movies.py lines
235-246).  `get_configuration()` yields `(pool_size, w_concern, user_info)`
or raises.  The success body is the Python dict literal with keys `status`,
`pool_size`, `wtimeout` (the `wtimeout` of the write-concern document, default
the string "0") followed by the spread `**user_info`; neither branch sets a
status code, so both answer 200. -/
def get_conn_pool_size
    (get_configuration : Except String (Value × WriteConcern × List (String × Value))) :
    Response :=
  match get_configuration with
  | .error e => ([("status", .vStr "fail"), ("error", .vStr e)], 200)
  | .ok (pool_size, w_concern, user_info) =>
      (pyDictMerge
        [("status", .vStr "success"),
         ("pool_size", pool_size),
         ("wtimeout", dictGetD w_concern.document "wtimeout" (.vStr "0"))]
        user_info, 200)

/-- A trivial data layer used to instantiate theorems at concrete inputs. -/
def dbTriv : DB :=
  ⟨fun _ _ _ => (.vList [], .vInt 0),
   fun _ _ _ => .ok ([], .vInt 0),
   fun _ => .ok (.vList [])⟩

/-- A data layer whose `get_movies` reports, through the movies slot of its
result, whether it received `None` or a dict as its filters argument. -/
def dbProbe : DB :=
  ⟨fun f _ _ =>
     (match f with
      | .vNone => .vStr "got None filters"
      | _ => .vStr "got dict filters", .vInt 0),
   fun _ _ _ => .ok ([], .vInt 0),
   fun _ => .ok (.vList [])⟩

/-- A data layer whose faceted and by-country queries raise. -/
def dbErr : DB :=
  ⟨fun _ _ _ => (.vList [], .vInt 0),
   fun _ _ _ => .error "boom",
   fun _ => .error "down"⟩

/-- A `get_movie` with one known id whose document carries a datetime
`lastupdated`. -/
def getMovieFix : String → Option (List (String × Value)) :=
  fun id =>
    if id = "573a1390" then
      some [("title", .vStr "Blacksmith Scene"),
            ("lastupdated", .vOpaque "<class \x27datetime.datetime\x27>")]
    else none

/-- A `get_movie` whose only document lacks a `lastupdated` field. -/
def getMovieNoUpd : String → Option (List (String × Value)) :=
  fun _ => some [("title", .vStr "t"), ("comments", .vList [])]

/-- An `add_comment` that always succeeds. -/
def addCommentTriv : String → Value → String → Value → Except String Unit :=
  fun _ _ _ _ => .ok ()

theorem dictGet_dictInsert_self (d : List (String × Value)) (k : String) (v : Value) :
    dictGet (dictInsert d k v) k = some v := by
  induction d with
  | nil => simp [dictInsert, dictGet]
  | cons p rest ih =>
      obtain ⟨k₁, v₁⟩ := p
      by_cases h : k₁ = k <;> simp [dictInsert, dictGet, h, ih]

theorem dictGet_dictInsert_ne (d : List (String × Value)) (k k₁ : String) (v : Value)
    (h : k ≠ k₁) : dictGet (dictInsert d k v) k₁ = dictGet d k₁ := by
  induction d with
  | nil => simp [dictInsert, dictGet, h]
  | cons p rest ih =>
      obtain ⟨k₂, v₂⟩ := p
      by_cases h₂ : k₂ = k <;> by_cases h₃ : k₂ = k₁ <;>
        simp_all [dictInsert, dictGet]

theorem dictGet_pyDictMerge_not_mem (u : List (String × Value)) :
    ∀ (d : List (String × Value)) (k : String), k ∉ u.map Prod.fst →
      dictGet (pyDictMerge d u) k = dictGet d k := by
  induction u with
  | nil => intro d k _; rfl
  | cons p rest ih =>
      intro d k h
      simp only [List.map_cons, List.mem_cons, not_or] at h
      have step : pyDictMerge d (p :: rest) = pyDictMerge (dictInsert d p.1 p.2) rest := rfl
      rw [step, ih _ _ h.2, dictGet_dictInsert_ne _ _ _ _ (fun he => h.1 he.symm)]

theorem dictGet_pyDictMerge_mem (u : List (String × Value)) :
    ∀ (d : List (String × Value)) (k : String) (v : Value),
      (u.map Prod.fst).Nodup → (k, v) ∈ u →
      dictGet (pyDictMerge d u) k = some v := by
  induction u with
  | nil => intro d k v _ h; cases h
  | cons p rest ih =>
      intro d k v hnd h
      obtain ⟨k₁, v₁⟩ := p
      have step : pyDictMerge d ((k₁, v₁) :: rest)
          = pyDictMerge (dictInsert d k₁ v₁) rest := rfl
      rcases List.mem_cons.mp h with he | ht
      · have hk : k = k₁ := congrArg Prod.fst he
        have hv : v = v₁ := congrArg Prod.snd he
        subst hk; subst hv
        have hnotin : k ∉ rest.map Prod.fst := by
          simpa using (List.nodup_cons.mp hnd).1
        rw [step, dictGet_pyDictMerge_not_mem _ _ _ hnotin, dictGet_dictInsert_self]
      · rw [step]
        exact ih _ _ _ (List.nodup_cons.mp hnd).2 ht

/-- C3, counterexample: the claim says the effective page of the search and
faceted-search endpoints is always a non-negative integer, but the request
with query string page=-1 is parsed by `int` to -1, which both endpoints use
and echo unchanged. -/
theorem page_nonneg_counterexample :
    dictGet (api_search_movies dbTriv ⟨some "-1", [], [], none⟩).1 "page"
      = some (.vInt (-1)) ∧
    dictGet (api_search_movies_faceted dbTriv ⟨some "-1", [], [], none⟩).1 "page"
      = some (.vInt (-1)) ∧
    (-1 : Int) < 0 :=
  ⟨rfl, rfl, by decide⟩

/-- C3, amended: the effective page equals `parsePage` of the page parameter;
it is echoed as the page of the response wherever the response carries one, and it
is non-negative unless the client supplied a parseable negative integer, in
which case that negative value is used as-is. -/
theorem effective_page_spec (db : DB) (r : Request) :
    dictGet (api_search_movies db r).1 "page" = some (.vInt (parsePage r.page)) ∧
    (dictGet (api_search_movies_faceted db r).1 "page"
        = some (.vInt (parsePage r.page)) ∨
      dictGet (api_search_movies_faceted db r).1 "status" = some (.vStr "fail")) ∧
    (0 ≤ parsePage r.page ∨
      ∃ s n, r.page = some s ∧ pyParseInt s = some n ∧ n < 0 ∧ parsePage r.page = n) := by
  refine ⟨by simp [api_search_movies, dictGet], ?_, ?_⟩
  · by_cases hc : r.cast.isEmpty
    · left
      simp [api_search_movies_faceted, api_search_movies, hc, dictGet]
    · have hne : dictInsert [] "cast" (.vList (r.cast.map .vStr)) = [("cast", .vList (r.cast.map .vStr))] := rfl
      rcases he : db.get_movies_faceted [("cast", .vList (r.cast.map .vStr))]
          (parsePage r.page) 20 with e | mt
      · right
        simp [api_search_movies_faceted, hc, hne, he, dictGet]
      · left
        simp [api_search_movies_faceted, hc, hne, he, dictGet]
  · rcases hp : r.page with _ | s
    · left; simp [parsePage]
    · rcases hn : pyParseInt s with _ | n
      · left; simp [parsePage, hn]
      · rcases le_or_lt 0 n with hle | hlt
        · left; simpa [parsePage, hn] using hle
        · right; exact ⟨s, n, rfl, hn, hlt, by simp [parsePage, hn]⟩

/-- C4: when the page query parameter is absent or not parseable as an
integer, the effective page is 0 and the search request still succeeds
(status success, HTTP 200) with page 0 echoed; the parse failure is never
surfaced. -/
theorem bad_page_defaults_to_zero (db : DB) (r : Request)
    (h : r.page = none ∨ ∃ s, r.page = some s ∧ pyParseInt s = none) :
    parsePage r.page = 0 ∧
    (api_search_movies db r).2 = 200 ∧
    dictGet (api_search_movies db r).1 "page" = some (.vInt 0) ∧
    dictGet (api_search_movies db r).1 "status" = some (.vStr "success") := by
  have hp : parsePage r.page = 0 := by
    rcases h with h | ⟨s, hs, hn⟩
    · simp [parsePage, h]
    · simp [parsePage, hs, hn]
  exact ⟨hp, rfl, by simp [api_search_movies, dictGet, hp], by simp [api_search_movies, dictGet]⟩

/-- C4, witness at the request with page=two against the trivial data
layer. -/
theorem bad_page_defaults_to_zero_witness :
    parsePage (some "two") = 0 ∧
    (api_search_movies dbTriv ⟨some "two", [], [], none⟩).2 = 200 ∧
    dictGet (api_search_movies dbTriv ⟨some "two", [], [], none⟩).1 "page"
      = some (.vInt 0) ∧
    dictGet (api_search_movies dbTriv ⟨some "two", [], [], none⟩).1 "status"
      = some (.vStr "success") :=
  bad_page_defaults_to_zero dbTriv ⟨some "two", [], [], none⟩
    (Or.inr ⟨"two", rfl, by decide⟩)

/-- C6: when the request carries no cast values, the faceted-search handler
falls back to the search handler, so body and status code coincide with the
response of the search endpoint on the same request. -/
theorem faceted_fallback_eq_search (db : DB) (r : Request) (h : r.cast = []) :
    api_search_movies_faceted db r = api_search_movies db r := by
  simp [api_search_movies_faceted, h]

/-- C6, witness: a request with page, genre and text values but no cast gets
the same response from both endpoints. -/
theorem faceted_fallback_eq_search_witness :
    api_search_movies_faceted dbTriv ⟨some "3", [], ["Comedy"], some "ship"⟩
      = api_search_movies dbTriv ⟨some "3", [], ["Comedy"], some "ship"⟩ :=
  faceted_fallback_eq_search dbTriv ⟨some "3", [], ["Comedy"], some "ship"⟩ rfl

/-- C2, counterexample: the claim says a search request with no cast, genre
or text passes None as the filters argument of `get_movies`.  Against a data
layer that reports which of the two it received, the parameterless request
yields a response showing the argument was the (empty) dict, not None. -/
theorem search_passes_dict_counterexample :
    searchFilters ⟨none, [], [], none⟩ = [] ∧
    dictGet (api_search_movies dbProbe ⟨none, [], [], none⟩).1 "movies"
      = some (.vStr "got dict filters") ∧
    Value.vStr "got dict filters" ≠ Value.vStr "got None filters" :=
  ⟨rfl, rfl, by simp⟩

/-- C2, amended: the search endpoint calls `get_movies` with the internal
filter dict, the parsed page and 20, and the movies and
total_results of its response are exactly the two components of that call; when no cast, genre or
text parameter is supplied the filters argument is the empty dict (not
None). -/
theorem search_get_movies_args (db : DB) (r : Request) :
    dictGet (api_search_movies db r).1 "movies"
      = some (db.get_movies (.vDict (searchFilters r)) (parsePage r.page) 20).1 ∧
    dictGet (api_search_movies db r).1 "total_results"
      = some (db.get_movies (.vDict (searchFilters r)) (parsePage r.page) 20).2 ∧
    (r.cast = [] → r.genre = [] → pyStrTruthy r.text = false →
      searchFilters r = []) := by
  refine ⟨by simp [api_search_movies, dictGet], by simp [api_search_movies, dictGet], ?_⟩
  intro hc hg ht
  rcases hs : r.text with _ | s
  · simp [searchFilters, hc, hg, hs]
  · rw [hs] at ht
    have hs0 : s = "" := by simpa [pyStrTruthy] using ht
    simp [searchFilters, hc, hg, hs, hs0]

/-- C2, witness at the parameterless request against the trivial data
layer. -/
theorem search_get_movies_args_witness :
    dictGet (api_search_movies dbTriv ⟨none, [], [], none⟩).1 "movies"
      = some (dbTriv.get_movies (.vDict (searchFilters ⟨none, [], [], none⟩))
          (parsePage none) 20).1 ∧
    dictGet (api_search_movies dbTriv ⟨none, [], [], none⟩).1 "total_results"
      = some (dbTriv.get_movies (.vDict (searchFilters ⟨none, [], [], none⟩))
          (parsePage none) 20).2 ∧
    searchFilters ⟨none, [], [], none⟩ = [] := by
  have h := search_get_movies_args dbTriv ⟨none, [], [], none⟩
  exact ⟨h.1, h.2.1, h.2.2 rfl rfl rfl⟩

/-- C7: the movie-by-id handler answers status fail with HTTP 400 when
`get_movie` returns None or an empty document, and otherwise status success
with HTTP 200 carrying the movie and `updated_type`, the rendered runtime
type of the lastupdated value of the movie; being a total function, it never
throws. -/
theorem movie_by_id_spec (get_movie : String → Option (List (String × Value)))
    (id : String) :
    ((get_movie id = none ∨ get_movie id = some []) →
      api_get_movie_by_id get_movie id = ([("status", .vStr "fail")], 400)) ∧
    (∀ movie, get_movie id = some movie → movie ≠ [] →
      api_get_movie_by_id get_movie id =
        ([("status", .vStr "success"), ("movie", .vDict movie),
          ("updated_type", .vStr (pyTypeStr (dictGetD movie "lastupdated" .vNone)))],
         200)) := by
  constructor
  · rintro (h | h) <;> simp [api_get_movie_by_id, h]
  · intro movie hm hne
    simp [api_get_movie_by_id, hm, List.isEmpty_iff, hne]

/-- C7, witness: a known id with a datetime lastupdated gives success / 200,
an unknown id gives fail / 400. -/
theorem movie_by_id_spec_witness :
    api_get_movie_by_id getMovieFix "573a1390" =
      ([("status", .vStr "success"),
        ("movie", .vDict [("title", .vStr "Blacksmith Scene"),
                          ("lastupdated", .vOpaque "<class \x27datetime.datetime\x27>")]),
        ("updated_type", .vStr "<class \x27datetime.datetime\x27>")], 200) ∧
    api_get_movie_by_id getMovieFix "nope" = ([("status", .vStr "fail")], 400) :=
  ⟨(movie_by_id_spec getMovieFix "573a1390").2 _ rfl (by simp),
   (movie_by_id_spec getMovieFix "nope").1 (Or.inl rfl)⟩

/-- C10: a non-empty movie document without a lastupdated field is still a
success: `movie.get` yields None, so the handler answers 200 with
updated_type rendering the NoneType type. -/
theorem missing_lastupdated_success
    (get_movie : String → Option (List (String × Value))) (id : String)
    (movie : List (String × Value)) (hm : get_movie id = some movie)
    (hne : movie ≠ []) (hmiss : dictGet movie "lastupdated" = none) :
    api_get_movie_by_id get_movie id =
      ([("status", .vStr "success"), ("movie", .vDict movie),
        ("updated_type", .vStr "<class \x27NoneType\x27>")], 200) := by
  simp [api_get_movie_by_id, hm, List.isEmpty_iff, hne, dictGetD, hmiss, pyTypeStr]

/-- C10, witness: a document with only title and comments fields. -/
theorem missing_lastupdated_success_witness :
    api_get_movie_by_id getMovieNoUpd "any" =
      ([("status", .vStr "success"),
        ("movie", .vDict [("title", .vStr "t"), ("comments", .vList [])]),
        ("updated_type", .vStr "<class \x27NoneType\x27>")], 200) :=
  missing_lastupdated_success getMovieNoUpd "any" _ rfl (by simp) rfl

/-- C8: an exception on the faceted (non-empty cast) path yields status fail
with the message and HTTP 200 (the fail body is returned without an explicit
code), whereas an exception in the movies-by-country handler yields status
fail with the message and HTTP 400. -/
theorem error_envelope_codes :
    (∀ (db : DB) (r : Request) (e : String), r.cast ≠ [] →
      db.get_movies_faceted [("cast", .vList (r.cast.map .vStr))]
          (parsePage r.page) 20 = .error e →
      api_search_movies_faceted db r
        = ([("status", .vStr "fail"), ("error", .vStr e)], 200)) ∧
    (∀ (gmbc : List String → Except String Value) (countries : List String) (e : String),
      gmbc countries = .error e →
      api_get_movies_by_country gmbc countries
        = ([("status", .vStr "fail"), ("error", .vStr e)], 400)) := by
  constructor
  · intro db r e hc herr
    have hne : r.cast.isEmpty = false := by
      simpa [List.isEmpty_iff] using hc
    have hins : dictInsert [] "cast" (Value.vList (r.cast.map .vStr))
        = [("cast", Value.vList (r.cast.map .vStr))] := rfl
    simp [api_search_movies_faceted, hne, hins, herr]
  · intro gmbc countries e herr
    simp [api_get_movies_by_country, herr]

/-- C8, witness: a raising data layer at a one-cast request and at a
one-country request. -/
theorem error_envelope_codes_witness :
    api_search_movies_faceted dbErr ⟨none, ["Tom Hanks"], [], none⟩
      = ([("status", .vStr "fail"), ("error", .vStr "boom")], 200) ∧
    api_get_movies_by_country dbErr.get_movies_by_country ["Germany"]
      = ([("status", .vStr "fail"), ("error", .vStr "down")], 400) :=
  ⟨error_envelope_codes.1 dbErr ⟨none, ["Tom Hanks"], [], none⟩ "boom" (by simp) rfl,
   error_envelope_codes.2 dbErr.get_movies_by_country ["Germany"] "down" rfl⟩

/-- C9: an authenticated comment post whose body lacks a string movie_id is
answered status fail with an error message naming movie_id, and no
`add_comment` call is made; the same holds for the comment field once
movie_id passes. -/
theorem comment_validation
    (add_comment : String → Value → String → Value → Except String Unit)
    (get_movie : String → Option (List (String × Value)))
    (user now : Value) (post_data : List (String × Value)) :
    ((∀ s, dictGetD post_data "movie_id" .vNone ≠ .vStr s) →
      api_post_comment add_comment get_movie user now post_data
        = (([("status", .vStr "fail"),
             ("error", .vStr ("movie_id" ++ " must be of type str"))], 200), [])) ∧
    (∀ mid, dictGetD post_data "movie_id" .vNone = .vStr mid →
      (∀ s, dictGetD post_data "comment" .vNone ≠ .vStr s) →
      api_post_comment add_comment get_movie user now post_data
        = (([("status", .vStr "fail"),
             ("error", .vStr ("comment" ++ " must be of type str"))], 200), [])) := by
  constructor
  · intro h
    rcases hv : dictGetD post_data "movie_id" .vNone with _ | s | n | l | d | t <;>
      first
        | exact absurd hv (by intro hh; exact h _ hh)
        | simp [api_post_comment, expect, hv]
  · intro mid hmid h
    rcases hv : dictGetD post_data "comment" .vNone with _ | s | n | l | d | t <;>
      first
        | exact absurd hv (by intro hh; exact h _ hh)
        | simp [api_post_comment, expect, hmid, hv]

/-- C9, witness: a body with only a comment fails naming movie_id; a body
with only a movie_id fails naming comment; neither makes an add_comment
call. -/
theorem comment_validation_witness :
    api_post_comment addCommentTriv getMovieNoUpd (.vStr "user@example.com")
        (.vOpaque "<class \x27datetime.datetime\x27>") [("comment", .vStr "great")]
      = (([("status", .vStr "fail"),
           ("error", .vStr ("movie_id" ++ " must be of type str"))], 200), []) ∧
    api_post_comment addCommentTriv getMovieNoUpd (.vStr "user@example.com")
        (.vOpaque "<class \x27datetime.datetime\x27>") [("movie_id", .vStr "573a1390")]
      = (([("status", .vStr "fail"),
           ("error", .vStr ("comment" ++ " must be of type str"))], 200), []) :=
  ⟨(comment_validation addCommentTriv getMovieNoUpd _ _ _).1
      (fun s => by simp [dictGetD, dictGet]),
   (comment_validation addCommentTriv getMovieNoUpd _ _ _).2 "573a1390" rfl
      (fun s => by simp [dictGetD, dictGet])⟩

/-- C5: the internal filter dict carries cast exactly when the cast list is
non-empty, genres exactly when the genre list is non-empty, and text exactly
when the text parameter is a non-empty string; the display dict carries the
same values under the query-parameter names cast, genre and search, and is
what the search response returns as its filters. -/
theorem filters_spec (r : Request) :
    dictGet (searchFilters r) "cast"
      = (if r.cast.isEmpty then none else some (.vList (r.cast.map .vStr))) ∧
    dictGet (searchFilters r) "genres"
      = (if r.genre.isEmpty then none else some (.vList (r.genre.map .vStr))) ∧
    dictGet (searchFilters r) "text"
      = (match r.text with
         | none => none
         | some s => if s = "" then none else some (.vStr s)) ∧
    dictGet (displayFilters r) "cast" = dictGet (searchFilters r) "cast" ∧
    dictGet (displayFilters r) "genre" = dictGet (searchFilters r) "genres" ∧
    dictGet (displayFilters r) "search" = dictGet (searchFilters r) "text" ∧
    ∀ db : DB, dictGet (api_search_movies db r).1 "filters"
      = some (.vDict (displayFilters r)) := by
  obtain ⟨p, cast, genre, text⟩ := r
  have hresp : ∀ db : DB,
      dictGet (api_search_movies db ⟨p, cast, genre, text⟩).1 "filters"
        = some (.vDict (displayFilters ⟨p, cast, genre, text⟩)) := by
    intro db; simp [api_search_movies, dictGet]
  rcases text with _ | s
  · cases cast <;> cases genre <;>
      exact ⟨by simp [searchFilters, dictInsert, dictGet],
             by simp [searchFilters, dictInsert, dictGet],
             by simp [searchFilters, dictInsert, dictGet],
             by simp [searchFilters, displayFilters, dictInsert, dictGet],
             by simp [searchFilters, displayFilters, dictInsert, dictGet],
             by simp [searchFilters, displayFilters, dictInsert, dictGet],
             hresp⟩
  · by_cases hs : s = "" <;> cases cast <;> cases genre <;>
      exact ⟨by simp [searchFilters, dictInsert, dictGet, hs],
             by simp [searchFilters, dictInsert, dictGet, hs],
             by simp [searchFilters, dictInsert, dictGet, hs],
             by simp [searchFilters, displayFilters, dictInsert, dictGet, hs],
             by simp [searchFilters, displayFilters, dictInsert, dictGet, hs],
             by simp [searchFilters, displayFilters, dictInsert, dictGet, hs],
             hresp⟩

/-- C1, counterexample: the claim says merging user_info never changes the
status, pool_size or wtimeout values, but the spread comes last in the dict
literal, so a user_info entry for status overwrites success. -/
theorem config_merge_counterexample :
    get_conn_pool_size (.ok (.vInt 5, ⟨[]⟩, [("status", .vStr "clobbered")]))
      = ([("status", .vStr "clobbered"), ("pool_size", .vInt 5),
          ("wtimeout", .vStr "0")], 200) ∧
    Value.vStr "clobbered" ≠ Value.vStr "success" :=
  ⟨rfl, by simp⟩

/-- C1, amended: the success body carries status=success, pool_size, and
wtimeout (the wtimeout of the write-concern document, default the string 0) and
every key/value pair of user_info, but user_info entries override on
collision: the three base values are guaranteed only for keys user_info does
not itself carry. -/
theorem config_response_fields (pool_size : Value) (w : WriteConcern)
    (user_info : List (String × Value))
    (hnd : (user_info.map Prod.fst).Nodup) :
    (get_conn_pool_size (.ok (pool_size, w, user_info))).2 = 200 ∧
    (∀ k v, (k, v) ∈ user_info →
      dictGet (get_conn_pool_size (.ok (pool_size, w, user_info))).1 k = some v) ∧
    ("status" ∉ user_info.map Prod.fst →
      dictGet (get_conn_pool_size (.ok (pool_size, w, user_info))).1 "status"
        = some (.vStr "success")) ∧
    ("pool_size" ∉ user_info.map Prod.fst →
      dictGet (get_conn_pool_size (.ok (pool_size, w, user_info))).1 "pool_size"
        = some pool_size) ∧
    ("wtimeout" ∉ user_info.map Prod.fst →
      dictGet (get_conn_pool_size (.ok (pool_size, w, user_info))).1 "wtimeout"
        = some (dictGetD w.document "wtimeout" (.vStr "0"))) := by
  refine ⟨rfl, ?_, ?_, ?_, ?_⟩
  · intro k v hkv
    exact dictGet_pyDictMerge_mem user_info _ k v hnd hkv
  · intro h
    rw [show (get_conn_pool_size (.ok (pool_size, w, user_info))).1
          = pyDictMerge [("status", .vStr "success"), ("pool_size", pool_size),
              ("wtimeout", dictGetD w.document "wtimeout" (.vStr "0"))] user_info from rfl,
        dictGet_pyDictMerge_not_mem user_info _ _ h]
    rfl
  · intro h
    rw [show (get_conn_pool_size (.ok (pool_size, w, user_info))).1
          = pyDictMerge [("status", .vStr "success"), ("pool_size", pool_size),
              ("wtimeout", dictGetD w.document "wtimeout" (.vStr "0"))] user_info from rfl,
        dictGet_pyDictMerge_not_mem user_info _ _ h]
    rfl
  · intro h
    rw [show (get_conn_pool_size (.ok (pool_size, w, user_info))).1
          = pyDictMerge [("status", .vStr "success"), ("pool_size", pool_size),
              ("wtimeout", dictGetD w.document "wtimeout" (.vStr "0"))] user_info from rfl,
        dictGet_pyDictMerge_not_mem user_info _ _ h]
    rfl

/-- C1, witness: a user_info with one fresh key region merges in while
status, pool_size and wtimeout keep the base values, wtimeout coming from
the write-concern document. -/
theorem config_response_fields_witness :
    (get_conn_pool_size (.ok (.vInt 9, ⟨[("wtimeout", .vStr "42")]⟩,
        [("region", .vStr "eu")]))).2 = 200 ∧
    dictGet (get_conn_pool_size (.ok (.vInt 9, ⟨[("wtimeout", .vStr "42")]⟩,
        [("region", .vStr "eu")]))).1 "region" = some (.vStr "eu") ∧
    dictGet (get_conn_pool_size (.ok (.vInt 9, ⟨[("wtimeout", .vStr "42")]⟩,
        [("region", .vStr "eu")]))).1 "status" = some (.vStr "success") ∧
    dictGet (get_conn_pool_size (.ok (.vInt 9, ⟨[("wtimeout", .vStr "42")]⟩,
        [("region", .vStr "eu")]))).1 "pool_size" = some (.vInt 9) ∧
    dictGet (get_conn_pool_size (.ok (.vInt 9, ⟨[("wtimeout", .vStr "42")]⟩,
        [("region", .vStr "eu")]))).1 "wtimeout" = some (.vStr "42") := by
  have h := config_response_fields (.vInt 9) ⟨[("wtimeout", .vStr "42")]⟩
    [("region", .vStr "eu")] (by simp)
  exact ⟨h.1, h.2.1 "region" (.vStr "eu") (by simp), h.2.2.1 (by simp),
         h.2.2.2.1 (by simp), h.2.2.2.2 (by simp)⟩

end Mflix
